import Mathlib

/-!
Shallow embedding of `src/start-proxy.py` and
`src/mitmproxy_addons/redirect_from_signaldonations.py`.

The orchestration script `start-proxy.py` is straight-line Python whose only
control flow is exception propagation out of `subprocess.run(..., check=True)`
calls (and one `os.path.exists` check).  We embed one session of `main()` as a
function from the session configuration (`Args`) and an environment recording
the outcome of each external interaction (`Env`) to the ordered list of
external invocations performed (`Event`) together with the uncaught exception,
if any (`Err`).  A raised exception propagates out of the `with
tempfile.TemporaryDirectory()` block and terminates the process with a
non-zero exit status, so the session result is `none` exactly when the process
exits zero.
-/

namespace Proxying

/-- Configuration produced by `Args.parse` in `start-proxy.py`.  `script_paths`
is `Option` because `argparse`'s `action="append"` leaves the attribute `None`
when `--script` is never passed, and `run_mitmproxy` guards on `is not None`. -/
structure Args where
  signal_root_path : String
  script_paths : Option (List String)
  use_web : Bool
  skip_proxy_config : Bool
deriving DecidableEq

/-- Embedding of `get_signal_cert_path`. -/
def get_signal_cert_path (signal_root_path : String) : String :=
  signal_root_path ++ "/SignalServiceKit/Resources/Certificates/signal-messenger.cer"

/-- One observable external interaction of a session, in the order `main`
performs them:
- `checkDep d`: `run_command(["which", d])` from `check_dep`;
- `convertToPem`: the `openssl x509 -inform DER -outform PEM` read inside
  `make_signal_ca_cert_pem` (via `get_command_output`);
- `writePemFile`: the `open(pem_cert_path, "w")` write of the PEM copy;
- `substituteCert`: the `openssl x509 -inform PEM -outform DER -out cert_path`
  call inside `replace_signal_ca_cert_with_mitmproxy` (the only statement that
  writes the pinned certificate path during setup);
- `enableProxy`: `manage_proxy(["set", "127.0.0.1", "8080"])`;
- `runProxy`: the blocking `run_command` of mitmproxy/mitmweb;
- `disableProxy`: `manage_proxy(["disable"])`;
- `restoreCert`: `run_command(["git", "checkout", cert_path])` from
  `reset_signal_ca_cert`. -/
inductive Event where
  | checkDep (dep : String)
  | convertToPem
  | writePemFile
  | substituteCert
  | enableProxy
  | runProxy
  | disableProxy
  | restoreCert
deriving DecidableEq

/-- An uncaught Python exception terminating the session.  `toolFailed prog`
stands for the `CalledProcessError`/`FileNotFoundError` raised by
`subprocess.run(..., check=True)` for program `prog`; `mitmCertMissing` is the
`Exception` raised by `replace_signal_ca_cert_with_mitmproxy` when
`os.path.exists` is false for the mitmproxy CA certificate. -/
inductive Err where
  | toolFailed (prog : String)
  | mitmCertMissing
deriving DecidableEq

/-- Outcome of each external interaction of one session.  A `run_command` with
`check=True` succeeds iff the program is found and exits zero; for the blocking
mitmproxy run we keep the two pieces separate (`runStarts` = the process could
be spawned, `runExitCode` = its exit status) because the spec distinguishes
start-up failure from a non-zero exit at termination. -/
structure Env where
  mitmproxyInstalled : Bool
  opensslInstalled : Bool
  convertOk : Bool
  mitmCertExists : Bool
  substituteOk : Bool
  enableOk : Bool
  runStarts : Bool
  runExitCode : Nat
  disableOk : Bool
  restoreOk : Bool
deriving DecidableEq

/-- Embedding of `main()` from `start-proxy.py`: the ordered invocation trace
and the uncaught exception (if any).  Each `run_command` appends its event and
then, if the environment says that command failed, the exception propagates
immediately: no later statement of `main` runs (there is no try/finally in the
source).  The PEM file write is modelled as always succeeding; the existence
check in `replace_signal_ca_cert_with_mitmproxy` precedes the substituting
`openssl` call, so on `mitmCertExists = false` no `substituteCert` event
occurs. -/
def main (cfg : Args) (env : Env) : List Event × Option Err :=
  let evs := [Event.checkDep "mitmproxy"]
  if !env.mitmproxyInstalled then (evs, some (Err.toolFailed "which")) else
  let evs := evs ++ [Event.checkDep "openssl"]
  if !env.opensslInstalled then (evs, some (Err.toolFailed "which")) else
  let evs := evs ++ [Event.convertToPem]
  if !env.convertOk then (evs, some (Err.toolFailed "openssl")) else
  let evs := evs ++ [Event.writePemFile]
  if !env.mitmCertExists then (evs, some Err.mitmCertMissing) else
  let evs := evs ++ [Event.substituteCert]
  if !env.substituteOk then (evs, some (Err.toolFailed "openssl")) else
  let evs := if cfg.skip_proxy_config then evs else evs ++ [Event.enableProxy]
  if !cfg.skip_proxy_config && !env.enableOk then (evs, some (Err.toolFailed "manage_proxy")) else
  let evs := evs ++ [Event.runProxy]
  if !(env.runStarts && env.runExitCode == 0) then (evs, some (Err.toolFailed "mitmproxy")) else
  let evs := if cfg.skip_proxy_config then evs else evs ++ [Event.disableProxy]
  if !cfg.skip_proxy_config && !env.disableOk then (evs, some (Err.toolFailed "manage_proxy")) else
  let evs := evs ++ [Event.restoreCert]
  if !env.restoreOk then (evs, some (Err.toolFailed "git")) else
  (evs, none)

/-- Embedding of the command-line built by `run_mitmproxy`: the executable is
`mitmweb` when `--web-ui` was passed and `mitmproxy` otherwise; each script
path contributes `["--scripts", path]` via the `for` loop (modelled by the
`foldl`, matching the repeated `command_args += ...`); finally the
`--set ssl_verify_upstream_trusted_ca=<pem path>` pair is appended. -/
def run_mitmproxy_command (args : Args) (pem_signal_ca_cert_path : String) : List String :=
  let command_args := [if args.use_web then "mitmweb" else "mitmproxy"]
  let command_args :=
    match args.script_paths with
    | none => command_args
    | some paths => paths.foldl (fun acc script_path => acc ++ ["--scripts", script_path]) command_args
  command_args ++ ["--set", "ssl_verify_upstream_trusted_ca=" ++ pem_signal_ca_cert_path]

/-- Script-registration flags as the spec describes them: every configured
script path in input order, each preceded by its own `--scripts` flag. -/
def scriptFlags : List String → List String
  | [] => []
  | script_path :: rest => "--scripts" :: script_path :: scriptFlags rest

/-- Modelled from the spec (refinement side of C9): the launch command as §4.4
and the claim describe it — web-UI executable exactly when the UI-mode flag is
set, the verbatim script-registration flags in input order (none when no
script was configured), and the mandatory upstream-trust `--set` pair. -/
def spec_proxy_command (args : Args) (pem_signal_ca_cert_path : String) : List String :=
  (if args.use_web then "mitmweb" else "mitmproxy")
    :: (scriptFlags ((args.script_paths).getD []) ++
        ["--set", "ssl_verify_upstream_trusted_ca=" ++ pem_signal_ca_cert_path])

/-- Request data of an HTTP flow, as the redirect addon reads it: the full URL
(`flow.request.url`) and the path component (`flow.request.path`). -/
structure Request where
  url : String
  path : String
deriving DecidableEq

/-- Response value as built by `http.Response.make` in the addon. -/
structure Response where
  status_code : Nat
  headers : List (String × String)
deriving DecidableEq

/-- An HTTP flow: its request, and its response if one has been attached. -/
structure HTTPFlow where
  request : Request
  response : Option Response
deriving DecidableEq

/-- Python's `str.startswith` on the underlying character sequences:
`strStartsWith s p` is true iff `p` is an initial segment of `s`. -/
def strStartsWith (s p : String) : Bool :=
  p.data.isPrefixOf s.data

/-- Embedding of the `Redirect` addon class of
`redirect_from_signaldonations.py`. -/
structure Redirect where
  from_url : String
  to_url : String
deriving DecidableEq

/-- Embedding of `Redirect.__make_redirect_response`. -/
def Redirect.make_redirect_response (r : Redirect) (path : String) : Response :=
  { status_code := 302, headers := [("Location", r.to_url ++ path)] }

/-- Embedding of `Redirect.request`: when the request URL starts with
`from_url`, attach the 302 redirect response; otherwise the flow is returned
unchanged (the `logging.info` call has no effect on the flow). -/
def Redirect.request (r : Redirect) (flow : HTTPFlow) : HTTPFlow :=
  if strStartsWith flow.request.url r.from_url then
    { flow with response := some (r.make_redirect_response flow.request.path) }
  else
    flow

/-- Embedding of the module-level `addons` list. -/
def addons : List Redirect :=
  [{ from_url := "https://signaldonations.org", to_url := "sgnl://paypal-payment" }]

/-- Folding the per-script loop body over a list of script paths appends
exactly the script-registration flags, in input order. -/
theorem foldl_scripts (paths : List String) (acc : List String) :
    paths.foldl (fun acc script_path => acc ++ ["--scripts", script_path]) acc
      = acc ++ scriptFlags paths := by
  induction paths generalizing acc with
  | nil => simp [scriptFlags]
  | cons p ps ih => simp [scriptFlags, ih]

/-- C5: for every session whose configuration has the skip-network-proxy flag
set, the network-proxy helper is never invoked, neither to enable nor to
disable the system proxy, on any execution path. -/
theorem C5_skip_flag_suppresses_proxy_helper (cfg : Args) (env : Env)
    (h : cfg.skip_proxy_config = true) :
    Event.enableProxy ∉ (main cfg env).1 ∧ Event.disableProxy ∉ (main cfg env).1 := by
  rcases cfg with ⟨root, sp, web, skip⟩
  have hs : skip = true := h
  subst hs
  rcases env with ⟨m, o, cv, x, s, e, rs, code, d, r⟩
  revert m o cv x s e rs d r
  rcases code with _ | k <;> exact of_decide_eq_true rfl

/-- C5 witness: a concrete session with the skip flag set, where every other
external interaction succeeds, still performs no proxy-helper invocation. -/
theorem C5_witness :
    (⟨"r", none, false, true⟩ : Args).skip_proxy_config = true ∧
    (Event.enableProxy ∉ (main ⟨"r", none, false, true⟩ ⟨true, true, true, true, true, true, true, 0, true, true⟩).1 ∧
     Event.disableProxy ∉ (main ⟨"r", none, false, true⟩ ⟨true, true, true, true, true, true, true, 0, true, true⟩).1) :=
  ⟨rfl, C5_skip_flag_suppresses_proxy_helper _ _ rfl⟩

/-- C6: in every session the network-proxy disable operation is invoked at
most once, and only on executions where the enable operation was previously
invoked (it occurs earlier in the trace) and succeeded. -/
theorem C6_disable_at_most_once_and_only_after_enable (cfg : Args) (env : Env) :
    (main cfg env).1.count Event.disableProxy ≤ 1 ∧
    (Event.disableProxy ∈ (main cfg env).1 →
      Event.enableProxy ∈ (main cfg env).1 ∧ env.enableOk = true ∧
      (main cfg env).1.indexOf Event.enableProxy < (main cfg env).1.indexOf Event.disableProxy) := by
  rcases cfg with ⟨root, sp, web, skip⟩
  rcases env with ⟨m, o, cv, x, s, e, rs, code, d, r⟩
  revert skip m o cv x s e rs d r
  rcases code with _ | k <;> exact of_decide_eq_true rfl

/-- C1 counterexample: a concrete session in which every step up to and
including the certificate substitution is reached, the substituting `openssl`
call fails, and the restore operation is invoked zero times — refuting that it
is "still invoked exactly once". -/
theorem C1_counterexample :
    Event.substituteCert ∈ (main ⟨"r", none, false, false⟩ ⟨true, true, true, true, false, true, true, 0, true, true⟩).1 ∧
    (main ⟨"r", none, false, false⟩ ⟨true, true, true, true, false, true, true, 0, true, true⟩).2 ≠ none ∧
    (main ⟨"r", none, false, false⟩ ⟨true, true, true, true, false, true, true, 0, true, true⟩).1.count Event.restoreCert ≠ 1 := by
  decide

/-- C1 (amended): for every session in which the certificate substitution step
fails — whether because the interception certificate is missing or because the
substituting conversion itself fails — the restore operation is never invoked:
the exception propagates and the session ends in error with no teardown. -/
theorem C1_substitute_failure_aborts_without_restore (cfg : Args) (env : Env)
    (h1 : env.mitmproxyInstalled = true) (h2 : env.opensslInstalled = true)
    (h3 : env.convertOk = true)
    (h4 : env.mitmCertExists = false ∨ env.substituteOk = false) :
    (main cfg env).1.count Event.restoreCert = 0 ∧ (main cfg env).2 ≠ none := by
  rcases cfg with ⟨root, sp, web, skip⟩
  rcases env with ⟨m, o, cv, x, s, e, rs, code, d, r⟩
  have hm : m = true := h1
  have ho : o = true := h2
  have hcv : cv = true := h3
  subst hm; subst ho; subst hcv
  rcases h4 with h4 | h4
  · have hx : x = false := h4
    subst hx
    revert skip s e rs d r
    rcases code with _ | k <;> exact of_decide_eq_true rfl
  · have hsub : s = false := h4
    subst hsub
    revert skip x e rs d r
    rcases code with _ | k <;> exact of_decide_eq_true rfl

/-- C1 witness: the amended statement applied to a concrete session whose
substituting conversion fails. -/
theorem C1_witness :
    (main ⟨"w", none, false, false⟩ ⟨true, true, true, true, false, true, true, 0, true, true⟩).1.count Event.restoreCert = 0 ∧
    (main ⟨"w", none, false, false⟩ ⟨true, true, true, true, false, true, true, 0, true, true⟩).2 ≠ none :=
  C1_substitute_failure_aborts_without_restore _ _ rfl rfl rfl (Or.inr rfl)

/-- C2 counterexample: a concrete session that reaches the run phase, whose
network-proxy disable step then fails; the restore step is not invoked at all,
refuting that both teardown steps are attempted. -/
theorem C2_counterexample :
    Event.runProxy ∈ (main ⟨"r", none, false, false⟩ ⟨true, true, true, true, true, true, true, 0, false, true⟩).1 ∧
    Event.disableProxy ∈ (main ⟨"r", none, false, false⟩ ⟨true, true, true, true, true, true, true, 0, false, true⟩).1 ∧
    Event.restoreCert ∉ (main ⟨"r", none, false, false⟩ ⟨true, true, true, true, true, true, true, 0, false, true⟩).1 ∧
    (main ⟨"r", none, false, false⟩ ⟨true, true, true, true, true, true, true, 0, false, true⟩).2 = some (Err.toolFailed "manage_proxy") := by
  decide

/-- C2 (amended): teardown is sequential and short-circuiting.  For a session
that completes the run phase with the network proxy enabled: the disable step
is invoked; if disable fails, the restore step is not invoked and the disable
failure is the session's sole reported error; only if disable succeeds is
restore invoked (exactly once). -/
theorem C2_teardown_shortcircuits_on_disable_failure (cfg : Args) (env : Env)
    (h1 : env.mitmproxyInstalled = true) (h2 : env.opensslInstalled = true)
    (h3 : env.convertOk = true) (h4 : env.mitmCertExists = true)
    (h5 : env.substituteOk = true) (h6 : cfg.skip_proxy_config = false)
    (h7 : env.enableOk = true) (h8 : env.runStarts = true)
    (h9 : env.runExitCode = 0) :
    Event.runProxy ∈ (main cfg env).1 ∧
    Event.disableProxy ∈ (main cfg env).1 ∧
    (env.disableOk = false →
      Event.restoreCert ∉ (main cfg env).1 ∧
      (main cfg env).2 = some (Err.toolFailed "manage_proxy")) ∧
    (env.disableOk = true → (main cfg env).1.count Event.restoreCert = 1) := by
  rcases cfg with ⟨root, sp, web, skip⟩
  rcases env with ⟨m, o, cv, x, s, e, rs, code, d, r⟩
  have hm : m = true := h1
  have ho : o = true := h2
  have hcv : cv = true := h3
  have hx : x = true := h4
  have hs : s = true := h5
  have hskip : skip = false := h6
  have he : e = true := h7
  have hrs : rs = true := h8
  have hcode : code = 0 := h9
  subst hm; subst ho; subst hcv; subst hx; subst hs
  subst hskip; subst he; subst hrs; subst hcode
  revert d r
  exact of_decide_eq_true rfl

/-- C2 witness: the amended statement applied to a concrete session whose
disable step fails after a successful run. -/
theorem C2_witness :
    Event.runProxy ∈ (main ⟨"w", none, false, false⟩ ⟨true, true, true, true, true, true, true, 0, false, true⟩).1 ∧
    Event.disableProxy ∈ (main ⟨"w", none, false, false⟩ ⟨true, true, true, true, true, true, true, 0, false, true⟩).1 ∧
    ((⟨true, true, true, true, true, true, true, 0, false, true⟩ : Env).disableOk = false →
      Event.restoreCert ∉ (main ⟨"w", none, false, false⟩ ⟨true, true, true, true, true, true, true, 0, false, true⟩).1 ∧
      (main ⟨"w", none, false, false⟩ ⟨true, true, true, true, true, true, true, 0, false, true⟩).2 = some (Err.toolFailed "manage_proxy")) ∧
    ((⟨true, true, true, true, true, true, true, 0, false, true⟩ : Env).disableOk = true →
      (main ⟨"w", none, false, false⟩ ⟨true, true, true, true, true, true, true, 0, false, true⟩).1.count Event.restoreCert = 1) :=
  C2_teardown_shortcircuits_on_disable_failure _ _ rfl rfl rfl rfl rfl rfl rfl rfl rfl

/-- C3 counterexample: a concrete session whose network-proxy enable step
fails; disable is indeed never invoked, but restore is not invoked either,
refuting that restore "is still invoked exactly once". -/
theorem C3_counterexample :
    Event.enableProxy ∈ (main ⟨"r", none, false, false⟩ ⟨true, true, true, true, true, false, true, 0, true, true⟩).1 ∧
    Event.disableProxy ∉ (main ⟨"r", none, false, false⟩ ⟨true, true, true, true, true, false, true, 0, true, true⟩).1 ∧
    (main ⟨"r", none, false, false⟩ ⟨true, true, true, true, true, false, true, 0, true, true⟩).1.count Event.restoreCert ≠ 1 := by
  decide

/-- C3 (amended): for every session in which the network-proxy enable step
fails, the disable operation is never invoked and the restore operation is not
invoked either — the enable failure propagates and ends the session in error
with no teardown. -/
theorem C3_enable_failure_aborts_without_restore_or_disable (cfg : Args) (env : Env)
    (h1 : env.mitmproxyInstalled = true) (h2 : env.opensslInstalled = true)
    (h3 : env.convertOk = true) (h4 : env.mitmCertExists = true)
    (h5 : env.substituteOk = true) (h6 : cfg.skip_proxy_config = false)
    (h7 : env.enableOk = false) :
    Event.enableProxy ∈ (main cfg env).1 ∧
    Event.disableProxy ∉ (main cfg env).1 ∧
    (main cfg env).1.count Event.restoreCert = 0 ∧
    (main cfg env).2 = some (Err.toolFailed "manage_proxy") := by
  rcases cfg with ⟨root, sp, web, skip⟩
  rcases env with ⟨m, o, cv, x, s, e, rs, code, d, r⟩
  have hm : m = true := h1
  have ho : o = true := h2
  have hcv : cv = true := h3
  have hx : x = true := h4
  have hs : s = true := h5
  have hskip : skip = false := h6
  have he : e = false := h7
  subst hm; subst ho; subst hcv; subst hx; subst hs; subst hskip; subst he
  revert rs d r
  rcases code with _ | k <;> exact of_decide_eq_true rfl

/-- C3 witness: the amended statement applied to a concrete session whose
enable step fails. -/
theorem C3_witness :
    Event.enableProxy ∈ (main ⟨"w", none, false, false⟩ ⟨true, true, true, true, true, false, true, 0, true, true⟩).1 ∧
    Event.disableProxy ∉ (main ⟨"w", none, false, false⟩ ⟨true, true, true, true, true, false, true, 0, true, true⟩).1 ∧
    (main ⟨"w", none, false, false⟩ ⟨true, true, true, true, true, false, true, 0, true, true⟩).1.count Event.restoreCert = 0 ∧
    (main ⟨"w", none, false, false⟩ ⟨true, true, true, true, true, false, true, 0, true, true⟩).2 = some (Err.toolFailed "manage_proxy") :=
  C3_enable_failure_aborts_without_restore_or_disable _ _ rfl rfl rfl rfl rfl rfl rfl

/-- C4 counterexample: a concrete session in which the proxy process starts
and later terminates with exit status 130 (user-initiated termination); the
session ends in error, not with exit code zero, and neither teardown step is
invoked — refuting that a non-zero exit is treated as a normal session end
that proceeds into teardown. -/
theorem C4_counterexample :
    (⟨true, true, true, true, true, true, true, 130, true, true⟩ : Env).runStarts = true ∧
    (⟨true, true, true, true, true, true, true, 130, true, true⟩ : Env).runExitCode ≠ 0 ∧
    (main ⟨"r", none, false, false⟩ ⟨true, true, true, true, true, true, true, 130, true, true⟩).2 ≠ none ∧
    Event.disableProxy ∉ (main ⟨"r", none, false, false⟩ ⟨true, true, true, true, true, true, true, 130, true, true⟩).1 ∧
    Event.restoreCert ∉ (main ⟨"r", none, false, false⟩ ⟨true, true, true, true, true, true, true, 130, true, true⟩).1 := by
  decide

/-- C4 (amended): the run step is invoked with `check=True`, so it fails both
when the proxy process cannot be started and when it terminates with any
non-zero exit status; in the latter case the session ends in error with no
teardown step invoked.  Only a zero exit status is treated as a normal session
end that proceeds into teardown. -/
theorem C4_nonzero_exit_is_error_and_skips_teardown (cfg : Args) (env : Env)
    (h1 : env.mitmproxyInstalled = true) (h2 : env.opensslInstalled = true)
    (h3 : env.convertOk = true) (h4 : env.mitmCertExists = true)
    (h5 : env.substituteOk = true)
    (h6 : cfg.skip_proxy_config = true ∨ env.enableOk = true)
    (h7 : env.runStarts = true) (h8 : env.runExitCode ≠ 0) :
    Event.runProxy ∈ (main cfg env).1 ∧
    (main cfg env).2 = some (Err.toolFailed "mitmproxy") ∧
    Event.disableProxy ∉ (main cfg env).1 ∧
    Event.restoreCert ∉ (main cfg env).1 := by
  rcases cfg with ⟨root, sp, web, skip⟩
  rcases env with ⟨m, o, cv, x, s, e, rs, code, d, r⟩
  have hm : m = true := h1
  have ho : o = true := h2
  have hcv : cv = true := h3
  have hx : x = true := h4
  have hs : s = true := h5
  have hrs : rs = true := h7
  subst hm; subst ho; subst hcv; subst hx; subst hs; subst hrs
  rcases code with _ | k
  · exact absurd rfl h8
  · rcases h6 with h6 | h6
    · have hskip : skip = true := h6
      subst hskip
      revert e d r
      exact of_decide_eq_true rfl
    · have he : e = true := h6
      subst he
      revert skip d r
      exact of_decide_eq_true rfl

/-- C4 witness: the amended statement applied to a concrete session whose
proxy process exits with status 130. -/
theorem C4_witness :
    Event.runProxy ∈ (main ⟨"w", none, false, false⟩ ⟨true, true, true, true, true, true, true, 130, true, true⟩).1 ∧
    (main ⟨"w", none, false, false⟩ ⟨true, true, true, true, true, true, true, 130, true, true⟩).2 = some (Err.toolFailed "mitmproxy") ∧
    Event.disableProxy ∉ (main ⟨"w", none, false, false⟩ ⟨true, true, true, true, true, true, true, 130, true, true⟩).1 ∧
    Event.restoreCert ∉ (main ⟨"w", none, false, false⟩ ⟨true, true, true, true, true, true, true, 130, true, true⟩).1 :=
  C4_nonzero_exit_is_error_and_skips_teardown _ _ rfl rfl rfl rfl rfl (Or.inr rfl) rfl
    (by decide)

/-- C7: if the interception tool's certificate does not exist at its expected
location, the session fails with the missing-certificate error, the
substituting write to the pinned certificate path never happens (its bytes are
unmodified), and neither the network-proxy enable step nor the proxy process
launch is ever invoked. -/
theorem C7_missing_interception_cert_aborts_unmodified (cfg : Args) (env : Env)
    (h1 : env.mitmproxyInstalled = true) (h2 : env.opensslInstalled = true)
    (h3 : env.convertOk = true) (h4 : env.mitmCertExists = false) :
    (main cfg env).2 = some Err.mitmCertMissing ∧
    Event.substituteCert ∉ (main cfg env).1 ∧
    Event.enableProxy ∉ (main cfg env).1 ∧
    Event.runProxy ∉ (main cfg env).1 := by
  rcases cfg with ⟨root, sp, web, skip⟩
  rcases env with ⟨m, o, cv, x, s, e, rs, code, d, r⟩
  have hm : m = true := h1
  have ho : o = true := h2
  have hcv : cv = true := h3
  have hx : x = false := h4
  subst hm; subst ho; subst hcv; subst hx
  revert skip s e rs d r
  rcases code with _ | k <;> exact of_decide_eq_true rfl

/-- C7 witness: the statement applied to a concrete session where the
interception certificate is absent. -/
theorem C7_witness :
    (main ⟨"w", none, false, false⟩ ⟨true, true, true, false, true, true, true, 0, true, true⟩).2 = some Err.mitmCertMissing ∧
    Event.substituteCert ∉ (main ⟨"w", none, false, false⟩ ⟨true, true, true, false, true, true, true, 0, true, true⟩).1 ∧
    Event.enableProxy ∉ (main ⟨"w", none, false, false⟩ ⟨true, true, true, false, true, true, true, 0, true, true⟩).1 ∧
    Event.runProxy ∉ (main ⟨"w", none, false, false⟩ ⟨true, true, true, false, true, true, true, 0, true, true⟩).1 :=
  C7_missing_interception_cert_aborts_unmodified _ _ rfl rfl rfl rfl

/-- C8: if the conversion of the pinned certificate to PEM fails, the session
aborts with the conversion tool's error and no state is changed: the PEM
destination file is never written, the pinned certificate is never overwritten,
the network proxy is never enabled and the proxy process is never launched. -/
theorem C8_conversion_failure_leaves_state_untouched (cfg : Args) (env : Env)
    (h1 : env.mitmproxyInstalled = true) (h2 : env.opensslInstalled = true)
    (h3 : env.convertOk = false) :
    (main cfg env).2 = some (Err.toolFailed "openssl") ∧
    Event.writePemFile ∉ (main cfg env).1 ∧
    Event.substituteCert ∉ (main cfg env).1 ∧
    Event.enableProxy ∉ (main cfg env).1 ∧
    Event.runProxy ∉ (main cfg env).1 := by
  rcases cfg with ⟨root, sp, web, skip⟩
  rcases env with ⟨m, o, cv, x, s, e, rs, code, d, r⟩
  have hm : m = true := h1
  have ho : o = true := h2
  have hcv : cv = false := h3
  subst hm; subst ho; subst hcv
  revert skip x s e rs d r
  rcases code with _ | k <;> exact of_decide_eq_true rfl

/-- C8 witness: the statement applied to a concrete session whose initial
conversion fails. -/
theorem C8_witness :
    (main ⟨"w", none, false, false⟩ ⟨true, true, false, true, true, true, true, 0, true, true⟩).2 = some (Err.toolFailed "openssl") ∧
    Event.writePemFile ∉ (main ⟨"w", none, false, false⟩ ⟨true, true, false, true, true, true, true, 0, true, true⟩).1 ∧
    Event.substituteCert ∉ (main ⟨"w", none, false, false⟩ ⟨true, true, false, true, true, true, true, 0, true, true⟩).1 ∧
    Event.enableProxy ∉ (main ⟨"w", none, false, false⟩ ⟨true, true, false, true, true, true, true, 0, true, true⟩).1 ∧
    Event.runProxy ∉ (main ⟨"w", none, false, false⟩ ⟨true, true, false, true, true, true, true, 0, true, true⟩).1 :=
  C8_conversion_failure_leaves_state_untouched _ _ rfl rfl rfl

/-- C6 witness: the general statement applied to a concrete successful
session (both invariants evaluate on its trace). -/
theorem C6_witness :
    (main ⟨"w", none, false, false⟩ ⟨true, true, true, true, true, true, true, 0, true, true⟩).1.count Event.disableProxy ≤ 1 ∧
    (Event.disableProxy ∈ (main ⟨"w", none, false, false⟩ ⟨true, true, true, true, true, true, true, 0, true, true⟩).1 →
      Event.enableProxy ∈ (main ⟨"w", none, false, false⟩ ⟨true, true, true, true, true, true, true, 0, true, true⟩).1 ∧
      (⟨true, true, true, true, true, true, true, 0, true, true⟩ : Env).enableOk = true ∧
      (main ⟨"w", none, false, false⟩ ⟨true, true, true, true, true, true, true, 0, true, true⟩).1.indexOf Event.enableProxy <
        (main ⟨"w", none, false, false⟩ ⟨true, true, true, true, true, true, true, 0, true, true⟩).1.indexOf Event.disableProxy) :=
  C6_disable_at_most_once_and_only_after_enable _ _

/-- C9: the proxy launch command equals the spec's description of it — the
web-UI executable exactly when the UI-mode flag is set, every configured
script path passed verbatim with its own `--scripts` flag in input order, and
the upstream-trust `--set` pair always appended. -/
theorem C9_launch_command_matches_spec (args : Args) (pem : String) :
    run_mitmproxy_command args pem = spec_proxy_command args pem := by
  rcases args with ⟨root, sp, web, skip⟩
  cases sp <;> simp [run_mitmproxy_command, spec_proxy_command, foldl_scripts, scriptFlags]

/-- C9 witness: the equality evaluated at a concrete configuration with two
scripts and the web UI selected. -/
theorem C9_witness :
    run_mitmproxy_command ⟨"w", some ["a.py", "b.py"], true, false⟩ "cert.pem" =
      spec_proxy_command ⟨"w", some ["a.py", "b.py"], true, false⟩ "cert.pem" :=
  C9_launch_command_matches_spec _ _

/-- C10: a flow whose request URL starts with the configured source URL gets a
302 response whose Location header is the configured target URL concatenated
with the request path, with the request left intact; any other flow is
returned unchanged. -/
theorem C10_redirect_rule (r : Redirect) (flow : HTTPFlow) :
    (strStartsWith flow.request.url r.from_url = true →
      (Redirect.request r flow).request = flow.request ∧
      (Redirect.request r flow).response =
        some { status_code := 302, headers := [("Location", r.to_url ++ flow.request.path)] }) ∧
    (strStartsWith flow.request.url r.from_url = false →
      Redirect.request r flow = flow) := by
  constructor <;> intro h <;>
    simp [Redirect.request, Redirect.make_redirect_response, h]

/-- C10 witness: the configured addon redirects a matching donations URL to
the target scheme with the path appended, and leaves a non-matching flow
untouched. -/
theorem C10_witness :
    ((Redirect.request ⟨"https://signaldonations.org", "sgnl://paypal-payment"⟩
        ⟨⟨"https://signaldonations.org/donate", "/donate"⟩, none⟩).request =
          (⟨⟨"https://signaldonations.org/donate", "/donate"⟩, none⟩ : HTTPFlow).request ∧
     (Redirect.request ⟨"https://signaldonations.org", "sgnl://paypal-payment"⟩
        ⟨⟨"https://signaldonations.org/donate", "/donate"⟩, none⟩).response =
          some ⟨302, [("Location", "sgnl://paypal-payment" ++ "/donate")]⟩) ∧
    (Redirect.request ⟨"https://signaldonations.org", "sgnl://paypal-payment"⟩
        ⟨⟨"https://example.com/x", "/x"⟩, none⟩ =
      ⟨⟨"https://example.com/x", "/x"⟩, none⟩) :=
  ⟨(C10_redirect_rule ⟨"https://signaldonations.org", "sgnl://paypal-payment"⟩
      ⟨⟨"https://signaldonations.org/donate", "/donate"⟩, none⟩).1 (by decide),
   (C10_redirect_rule ⟨"https://signaldonations.org", "sgnl://paypal-payment"⟩
      ⟨⟨"https://example.com/x", "/x"⟩, none⟩).2 (by decide)⟩

end Proxying
